import Mathlib

/-!
# Verification of the Sahara Sahaya ingestion pipeline

Shallow embedding of the schema-normalization pipeline of `src/app.py`
(`detect_encoding`, `standardise_columns`) and of the disaster-tag handling of
`src/map_utils.py` (`load_relief_centers` cell splitting, `filter_by_disaster`).

Modelling conventions:
* A pandas cell (read with `dtype=str`) is `Option String`; `none` is NaN.
* A DataFrame is a header (list of raw column names) plus a list of rows,
  each row a list of cells positioned like the header (the spec's RawRecord
  is a mapping from column names to string values, so column lookup is
  first-occurrence lookup in the header).
* Python `float(...)` values are modelled exactly as rationals (with explicit
  infinity/NaN results); IEEE rounding at the extreme range boundaries is
  abstracted away.
* String normalization (`.strip().lower()`, `\s` removal) is modelled on the
  character list with ASCII whitespace.
-/

/-- A pandas cell read with `dtype=str`: `none` models NaN. -/
abbrev Cell := Option String

/-- A loosely-typed row table as produced by `read_any_file`: raw header names
plus rows of cells aligned with the header. -/
structure Raw where
  header : List String
  rows : List (List Cell)
deriving Repr, DecidableEq

/-- Python `str.strip()` on the character list (ASCII whitespace). -/
def trimChars (cs : List Char) : List Char :=
  ((cs.dropWhile Char.isWhitespace).reverse.dropWhile Char.isWhitespace).reverse

/-- Python `str.lower()` (ASCII case folding). -/
def lowerStr (s : String) : String :=
  String.mk (s.data.map Char.toLower)

/-- `c.strip().lower()` applied to one column name (app.py line 62). -/
def normName (c : String) : String :=
  String.mk ((trimChars c.data).map Char.toLower)

/-- `df.columns = [c.strip().lower() for c in df.columns]` (app.py line 62). -/
def normHeader (h : List String) : List String :=
  h.map normName

/-- `REQUIRED_COLS` (app.py lines 20-23). -/
def REQUIRED_COLS : List String :=
  ["name", "type", "latitude", "longitude",
   "inventory", "last_updated", "contact", "supported_disasters"]

/-- `ALIASES["name"]` (app.py line 27). -/
def nameAliases : List String :=
  ["hospital_name", "facility name", "station name", "centre name", "center name", "name"]

/-- `ALIASES["type"]` (app.py line 28). -/
def typeAliases : List String :=
  ["hospital_category", "category", "hospital_type", "centre type", "type"]

/-- `ALIASES["latitude"]` (app.py line 29). -/
def latitudeAliases : List String :=
  ["lat", "latitude", "latitude(dd)", "lat_dd"]

/-- `ALIASES["longitude"]` (app.py line 30). -/
def longitudeAliases : List String :=
  ["lon", "long", "longitude", "longitude(dd)", "lng", "lng_dd"]

/-- `ALIASES["contact"]` (app.py line 31). -/
def contactAliases : List String :=
  ["mobile_number", "mobile", "telephone", "phone", "contact", "phone_no", "phone number"]

/-! ## Python float parsing

`good_lat`/`good_lon` call `float(x)` inside `try/except`.  We model the
accepted strings and their exact values: a finite result is kept in the
exact scaled-integer form `num / 10 ^ dexp` (interpreted into `ℚ` by
`ratVal`), together with the `inf`/`-inf`/`nan` results (all of which fail
the range checks, exactly as in Python where comparisons with `nan` are
false and infinities are out of range).  IEEE rounding is abstracted to the
exact decimal value; underscored digit groups (`"1_0"`) are not modelled. -/

/-- Result of a successful Python `float(...)` conversion; `fin num dexp`
denotes the exact value `num / 10 ^ dexp`. -/
inductive PFloat where
  | fin (num : Int) (dexp : Nat)
  | pinf
  | ninf
  | nan
deriving Repr, DecidableEq

/-- The rational value denoted by a finite parse result. -/
def ratVal (num : Int) (dexp : Nat) : ℚ :=
  (num : ℚ) / (10 : ℚ) ^ dexp

/-- Numeric value of a digit list (most significant first). -/
def digitsVal (cs : List Char) : Nat :=
  cs.foldl (fun n c => 10 * n + (c.toNat - 48)) 0

/-- Scale a mantissa/denominator-exponent pair by a signed power of ten. -/
def applyExp (mant : Nat) (dexp : Nat) (e : Int) : Nat × Nat :=
  if 0 ≤ e then (mant * 10 ^ e.toNat, dexp) else (mant, dexp + (-e).toNat)

/-- Parse the exponent digits (after `e`), with optional sign; every
remaining character must be a digit. -/
def parseExpPart (cs : List Char) : Option Int :=
  match cs with
  | '+' :: r => if r.isEmpty || !r.all Char.isDigit then none else some (digitsVal r)
  | '-' :: r => if r.isEmpty || !r.all Char.isDigit then none else some (-(digitsVal r : Int))
  | r => if r.isEmpty || !r.all Char.isDigit then none else some (digitsVal r)

/-- Parse an unsigned decimal literal `digits [. digits] [e [sign] digits]`
(already lowercased) into `(mantissa, dexp)` with value
`mantissa / 10 ^ dexp`; at least one mantissa digit is required. -/
def parseUDec (cs : List Char) : Option (Nat × Nat) :=
  let ip := cs.takeWhile Char.isDigit
  let rest := cs.dropWhile Char.isDigit
  match rest with
  | [] => if ip.isEmpty then none else some (digitsVal ip, 0)
  | '.' :: rest2 =>
    let fp := rest2.takeWhile Char.isDigit
    let rest3 := rest2.dropWhile Char.isDigit
    if ip.isEmpty && fp.isEmpty then none
    else
      match rest3 with
      | [] => some (digitsVal (ip ++ fp), fp.length)
      | 'e' :: rest4 => (parseExpPart rest4).map (applyExp (digitsVal (ip ++ fp)) fp.length)
      | _ => none
  | 'e' :: rest2 =>
    if ip.isEmpty then none else (parseExpPart rest2).map (applyExp (digitsVal ip) 0)
  | _ => none

/-- Body of a float literal after the optional sign: `inf`, `infinity`,
`nan`, or a decimal literal. -/
def pyFloatBody (cs : List Char) (pos : Bool) : Option PFloat :=
  if cs = ['i', 'n', 'f'] || cs = ['i', 'n', 'f', 'i', 'n', 'i', 't', 'y'] then
    some (if pos then PFloat.pinf else PFloat.ninf)
  else if cs = ['n', 'a', 'n'] then
    some PFloat.nan
  else
    match parseUDec cs with
    | some (m, d) => some (PFloat.fin (if pos then (m : Int) else -(m : Int)) d)
    | none => none

/-- Python `float(s)` on a string: strip whitespace, case-insensitive,
optional sign, then `inf`/`infinity`/`nan` or a decimal literal.
`none` models a raised `ValueError`. -/
def pyFloat? (s : String) : Option PFloat :=
  match (trimChars s.data).map Char.toLower with
  | '+' :: r => pyFloatBody r true
  | '-' :: r => pyFloatBody r false
  | r => pyFloatBody r true

/-- The range test `-bound <= num / 10 ^ dexp <= bound`, written on integers
after scaling by the positive factor `10 ^ dexp`. -/
def inRange (num : Int) (dexp : Nat) (bound : Nat) : Bool :=
  decide (-((bound : Int) * 10 ^ dexp) ≤ num) && decide (num ≤ (bound : Int) * 10 ^ dexp)

/-- `good_lat` (app.py lines 89-94) applied to one cell; a NaN cell makes
`float` return `nan`, whose range comparison is false. -/
def good_lat (x : Cell) : Bool :=
  match x with
  | none => false
  | some s =>
    match pyFloat? s with
    | some (PFloat.fin n d) => inRange n d 90
    | some _ => false
    | none => false

/-- `good_lon` (app.py lines 95-100) applied to one cell. -/
def good_lon (x : Cell) : Bool :=
  match x with
  | none => false
  | some s =>
    match pyFloat? s with
    | some (PFloat.fin n d) => inRange n d 180
    | some _ => false
    | none => false

/-! ## The canonical table built by `standardise_columns` -/

/-- One row of the canonical 8-column output table (`out` in app.py);
field order follows `REQUIRED_COLS`. -/
structure CRow where
  name : Cell
  type : Cell
  latitude : Cell
  longitude : Cell
  inventory : Cell
  last_updated : Cell
  contact : Cell
  supported_disasters : Cell
deriving Repr, DecidableEq

/-- Cell of a row at a column position (`none` beyond the row). -/
def cellAt (r : List Cell) (i : Nat) : Cell :=
  (r.get? i).join

/-- Index of the first occurrence of a column name in the (normalized)
header — pandas `df[cand]` column lookup. -/
def idxOf1 (c : String) : List String → Option Nat
  | [] => none
  | x :: xs => if x == c then some 0 else (idxOf1 c xs).map (· + 1)

/-- The cell of row `r` in the column named `c` (`df[c]` at this row). -/
def colCell (nh : List String) (r : List Cell) (c : String) : Cell :=
  match idxOf1 c nh with
  | some i => cellAt r i
  | none => none

/-- First alias candidate present in the header
(`for cand in candidates: if cand in df.columns: ...; break`, app.py 67-71). -/
def aliasSource (nh : List String) (cands : List String) : Option String :=
  cands.find? (fun c => nh.contains c)

/-- Value contributed to a target column by alias resolution: the cell of the
first matching candidate column, or NaN when no candidate matches (an
unassigned column of `out` holds NaN after the index is set). -/
def pick (nh : List String) (r : List Cell) (cands : List String) : Cell :=
  match aliasSource nh cands with
  | some c => colCell nh r c
  | none => none

/-- The columns of `out`: fixed at construction by
`out = pd.DataFrame(columns=REQUIRED_COLS)` (app.py line 64). -/
def outColumns : List String := REQUIRED_COLS

/-- Condition of branch ❷ (app.py line 74):
`"location_coordinates" in df.columns and ("latitude" not in out or
"longitude" not in out)` — the membership tests on `out` check its columns. -/
def coordSplitCond (nh : List String) : Bool :=
  nh.contains "location_coordinates" &&
    (!(outColumns.contains "latitude") || !(outColumns.contains "longitude"))

/-- Split a cell on every comma (`str.split(",", expand=True)` pieces),
rendered per row; a NaN cell yields no pieces. -/
def coordParts (x : Cell) : List String :=
  match x with
  | some s => s.splitOn ","
  | none => []

/-- Body of branch ❷ (app.py lines 75-77), rendered per row:
`out["latitude"] = out.get("latitude", coords[0])` keeps the existing
column whenever `"latitude"` is among the columns of `out`. -/
def coordSplit (nh : List String) (r : List Cell) (c : CRow) : CRow :=
  let parts := coordParts (colCell nh r "location_coordinates")
  { c with
    latitude := if outColumns.contains "latitude" then c.latitude else parts.get? 0
    longitude := if outColumns.contains "longitude" then c.longitude else parts.get? 1 }

/-- Step ❸ (app.py lines 80-82): `if col not in out: out[col] = ""`,
tested against the columns of `out`. -/
def fillMissing (c : CRow) : CRow :=
  { name := if outColumns.contains "name" then c.name else some ""
    type := if outColumns.contains "type" then c.type else some ""
    latitude := if outColumns.contains "latitude" then c.latitude else some ""
    longitude := if outColumns.contains "longitude" then c.longitude else some ""
    inventory := if outColumns.contains "inventory" then c.inventory else some ""
    last_updated := if outColumns.contains "last_updated" then c.last_updated else some ""
    contact := if outColumns.contains "contact" then c.contact else some ""
    supported_disasters :=
      if outColumns.contains "supported_disasters" then c.supported_disasters else some "" }

/-- Step ❶ for one row: the five alias-resolved columns; the three columns
with no aliases keep the NaN they hold in `out`. -/
def mkRowBase (nh : List String) (r : List Cell) : CRow :=
  { name := pick nh r nameAliases
    type := pick nh r typeAliases
    latitude := pick nh r latitudeAliases
    longitude := pick nh r longitudeAliases
    inventory := none
    last_updated := none
    contact := pick nh r contactAliases
    supported_disasters := none }

/-- Steps ❶-❸ for one row. -/
def mkRow (nh : List String) (r : List Cell) : CRow :=
  fillMissing (if coordSplitCond nh then coordSplit nh r (mkRowBase nh r) else mkRowBase nh r)

/-- `out["contact"].eq("").all()` (app.py line 85): NaN compares unequal
to the empty string. -/
def contactAllBlank (rows : List CRow) : Bool :=
  rows.all (fun c => c.contact == some "")

/-- Step ❹ (app.py lines 85-86): prefer the `mobile_number` column when
contact is entirely blank. -/
def contactFix (nh : List String) (raws : List (List Cell)) (rows : List CRow) : List CRow :=
  if nh.contains "mobile_number" && contactAllBlank rows then
    (rows.zip raws).map (fun p => { p.1 with contact := colCell nh p.2 "mobile_number" })
  else rows

/-- Step ❻a (app.py line 106): `dropna(subset=essentials)`. -/
def essentialsPresent (c : CRow) : Bool :=
  c.name.isSome && c.type.isSome && c.latitude.isSome && c.longitude.isSome && c.contact.isSome

/-- Step ❻b (app.py line 106): `query("name != '' and type != '' and contact != ''")`. -/
def queryKeep (c : CRow) : Bool :=
  !(c.name == some "") && !(c.type == some "") && !(c.contact == some "")

/-- Step ❼ (app.py lines 109-111): `fillna("")` on inventory and
last_updated, `replace("", "General")` on supported_disasters (NaN is not
the empty string, so `replace` leaves it alone). -/
def applyDefaults (c : CRow) : CRow :=
  { c with
    inventory := some (c.inventory.getD "")
    last_updated := some (c.last_updated.getD "")
    supported_disasters :=
      if c.supported_disasters == some "" then some "General" else c.supported_disasters }

/-- `standardise_columns` (app.py lines 59-113): header normalization, alias
mapping (with the coordinate-split and blank-fill steps exactly as coded),
contact fallback, coordinate validity filter, essential-field filter, and
defaults; `reset_index(drop=True)` renumbers and is the identity on the
row list. -/
def standardise_columns (t : Raw) : List CRow :=
  ((((contactFix (normHeader t.header) t.rows
        (t.rows.map (mkRow (normHeader t.header)))).filter
      (fun c => good_lat c.latitude && good_lon c.longitude)).filter
    essentialsPresent).filter queryKeep).map applyDefaults

/-! ## `detect_encoding` (app.py lines 34-37) -/

/-- `detect_encoding`: the statistical guesser (`chardet.detect`, an external
collaborator) is a parameter returning the guessed encoding name (or none);
the code samples the first 50,000 bytes, lowercases the guess (empty when
the guesser returns nothing) and falls back to latin1 on "", "ascii" or
"unknown". -/
def detect_encoding (guess : List Nat → Option String) (raw : List Nat) : String :=
  let enc := lowerStr ((guess (raw.take 50000)).getD "")
  if enc = "" ∨ enc = "ascii" ∨ enc = "unknown" then "latin1" else enc

/-! ## `map_utils` disaster-tag handling (map_utils.py lines 5-26) -/

/-- Split a whitespace-stripped character list on `|` or `,`
(`.str.replace(r"\s+", "", regex=True).str.split(r"[|,]")`). -/
def splitTagsAux (acc : List Char) : List Char → List String
  | [] => [String.mk acc.reverse]
  | c :: rest =>
    if c == '|' || c == ',' then
      String.mk acc.reverse :: splitTagsAux [] rest
    else
      splitTagsAux (c :: acc) rest

/-- Tag list of one `supported_disasters` cell after `load_relief_centers`
normalization (map_utils.py lines 9-15): remove all whitespace, then split
on `|` or `,`. -/
def splitTags (s : String) : List String :=
  splitTagsAux [] (s.data.filter (fun c => !c.isWhitespace))

/-- Tag list of a raw cell: `fillna("")` turns NaN into the empty string
before the split. -/
def loadTags (x : Cell) : List String :=
  splitTags (x.getD "")

/-- `_matches` (map_utils.py lines 21-24): some non-empty tag equals the
selected disaster, case-insensitively. -/
def matchesDisaster (lst : List String) (disaster : String) : Bool :=
  lst.any (fun item => !(item == "") && lowerStr item == lowerStr disaster)

/-- `filter_by_disaster` (map_utils.py lines 18-26) on the
`supported_disasters` column: keep the rows whose tag list matches. -/
def filter_by_disaster (rows : List (List String)) (disaster : String) : List (List String) :=
  rows.filter (fun l => matchesDisaster l disaster)

/-! ## Basic facts about the pipeline steps -/

/-- All 8 canonical columns exist in `out` from its construction, so the
guard of the coordinate-split branch is false for every input header. -/
theorem coordSplitCond_false (nh : List String) : coordSplitCond nh = false := by
  unfold coordSplitCond
  rw [show (!(outColumns.contains "latitude") || !(outColumns.contains "longitude")) = false from
    by decide, Bool.and_false]

/-- Step ❸ never fills anything: every required column is already a column
of `out`. -/
theorem fillMissing_id (c : CRow) : fillMissing c = c := rfl

/-- With the dead coordinate-split branch and the no-op fill, a built row is
just the alias-resolved row. -/
theorem mkRow_eq (nh : List String) (r : List Cell) : mkRow nh r = mkRowBase nh r := by
  unfold mkRow
  rw [coordSplitCond_false]
  exact fillMissing_id _

/-- No alias list targets `inventory`, so it stays NaN in every built row. -/
theorem mkRow_inventory (nh : List String) (r : List Cell) : (mkRow nh r).inventory = none := by
  rw [mkRow_eq]; rfl

/-- No alias list targets `last_updated`, so it stays NaN in every built row. -/
theorem mkRow_last_updated (nh : List String) (r : List Cell) :
    (mkRow nh r).last_updated = none := by
  rw [mkRow_eq]; rfl

/-- No alias list targets `supported_disasters`, so it stays NaN in every
built row. -/
theorem mkRow_supported (nh : List String) (r : List Cell) :
    (mkRow nh r).supported_disasters = none := by
  rw [mkRow_eq]; rfl

/-- Left component of a zip element is an element of the left list. -/
theorem mem_zip_left {α β : Type} : ∀ {l₁ : List α} {l₂ : List β} {p : α × β},
    p ∈ l₁.zip l₂ → p.1 ∈ l₁
  | a :: l₁, b :: l₂, p, h => by
    rcases List.mem_cons.mp h with h | h
    · subst h; exact List.mem_cons_self ..
    · exact List.mem_cons_of_mem _ (mem_zip_left h)

/-- The contact-fallback step only rewrites the contact column: every other
field of a surviving row comes from some alias-resolved row. -/
theorem contactFix_fields {nh : List String} {raws : List (List Cell)} {rows : List CRow}
    {c : CRow} (h : c ∈ contactFix nh raws rows) :
    ∃ c0 ∈ rows, c.name = c0.name ∧ c.type = c0.type ∧ c.latitude = c0.latitude ∧
      c.longitude = c0.longitude ∧ c.inventory = c0.inventory ∧
      c.last_updated = c0.last_updated ∧ c.supported_disasters = c0.supported_disasters := by
  unfold contactFix at h
  split at h
  · rcases List.mem_map.mp h with ⟨p, hp, rfl⟩
    exact ⟨p.1, mem_zip_left hp, rfl, rfl, rfl, rfl, rfl, rfl, rfl⟩
  · exact ⟨c, h, rfl, rfl, rfl, rfl, rfl, rfl, rfl⟩

/-- Every row of the final table satisfies the two filters, has the two
`fillna` defaults, and has a NaN `supported_disasters`. -/
theorem mem_standardise {t : Raw} {c : CRow} (h : c ∈ standardise_columns t) :
    good_lat c.latitude = true ∧ good_lon c.longitude = true ∧
      essentialsPresent c = true ∧ queryKeep c = true ∧
      c.inventory = some "" ∧ c.last_updated = some "" ∧ c.supported_disasters = none := by
  unfold standardise_columns at h
  rcases List.mem_map.mp h with ⟨c0, hc0, rfl⟩
  rcases List.mem_filter.mp hc0 with ⟨hc1, hq⟩
  rcases List.mem_filter.mp hc1 with ⟨hc2, he⟩
  rcases List.mem_filter.mp hc2 with ⟨hc3, hg⟩
  rcases contactFix_fields hc3 with ⟨c1, hc1mem, _, _, _, _, hinv, hupd, hsup⟩
  rcases List.mem_map.mp hc1mem with ⟨r, _, rfl⟩
  have hinv0 : c0.inventory = none := by rw [hinv, mkRow_inventory]
  have hupd0 : c0.last_updated = none := by rw [hupd, mkRow_last_updated]
  have hsup0 : c0.supported_disasters = none := by rw [hsup, mkRow_supported]
  have hgl : good_lat c0.latitude = true := by
    have := Bool.and_eq_true .. ▸ hg
    exact (Bool.and_eq_true _ _ |>.mp hg).1
  have hgo : good_lon c0.longitude = true := (Bool.and_eq_true _ _ |>.mp hg).2
  refine ⟨hgl, hgo, he, hq, ?_, ?_, ?_⟩ <;>
    simp [applyDefaults, hinv0, hupd0, hsup0]

/-- The scaled-integer range test agrees with the rational range
`-bound ≤ num / 10 ^ dexp ≤ bound`. -/
theorem inRange_iff (n : Int) (d b : Nat) :
    inRange n d b = true ↔ -(b : ℚ) ≤ ratVal n d ∧ ratVal n d ≤ (b : ℚ) := by
  have hpow : (0 : ℚ) < (10 : ℚ) ^ d := by positivity
  have h1 : (-(b : ℚ) ≤ ratVal n d) ↔ (-((b : Int) * 10 ^ d) ≤ n) := by
    rw [ratVal, le_div_iff₀ hpow,
      show (-(b : ℚ) * (10 : ℚ) ^ d) = (((-((b : Int) * 10 ^ d)) : Int) : ℚ) from by
        push_cast; ring]
    exact Int.cast_le
  have h2 : (ratVal n d ≤ (b : ℚ)) ↔ (n ≤ (b : Int) * 10 ^ d) := by
    rw [ratVal, div_le_iff₀ hpow,
      show ((b : ℚ) * (10 : ℚ) ^ d) = ((((b : Int) * 10 ^ d) : Int) : ℚ) from by
        push_cast; ring]
    exact Int.cast_le
  rw [h1, h2]
  unfold inRange
  rw [Bool.and_eq_true, decide_eq_true_eq, decide_eq_true_eq]

/-- A cell passing `good_lat` holds a string that `float` converts to a
finite value in `[-90, 90]`. -/
theorem good_lat_spec {x : Cell} (h : good_lat x = true) :
    ∃ s n d, x = some s ∧ pyFloat? s = some (PFloat.fin n d) ∧
      -(90 : ℚ) ≤ ratVal n d ∧ ratVal n d ≤ 90 := by
  cases x with
  | none => exact absurd h (by simp [good_lat])
  | some s =>
    simp only [good_lat] at h
    cases hp : pyFloat? s with
    | none => simp [hp] at h
    | some pf =>
      cases pf with
      | pinf => simp [hp] at h
      | ninf => simp [hp] at h
      | nan => simp [hp] at h
      | fin n d =>
        rw [hp] at h
        have hIR : inRange n d 90 = true := h
        obtain ⟨h1, h2⟩ := (inRange_iff n d 90).mp hIR
        push_cast at h1 h2
        exact ⟨s, n, d, rfl, hp, h1, h2⟩

/-- A cell passing `good_lon` holds a string that `float` converts to a
finite value in `[-180, 180]`. -/
theorem good_lon_spec {x : Cell} (h : good_lon x = true) :
    ∃ s n d, x = some s ∧ pyFloat? s = some (PFloat.fin n d) ∧
      -(180 : ℚ) ≤ ratVal n d ∧ ratVal n d ≤ 180 := by
  cases x with
  | none => exact absurd h (by simp [good_lon])
  | some s =>
    simp only [good_lon] at h
    cases hp : pyFloat? s with
    | none => simp [hp] at h
    | some pf =>
      cases pf with
      | pinf => simp [hp] at h
      | ninf => simp [hp] at h
      | nan => simp [hp] at h
      | fin n d =>
        rw [hp] at h
        have hIR : inRange n d 180 = true := h
        obtain ⟨h1, h2⟩ := (inRange_iff n d 180).mp hIR
        push_cast at h1 h2
        exact ⟨s, n, d, rfl, hp, h1, h2⟩

/-- C1: for every input table, every row of the table returned by
`standardise_columns` has a latitude that parses as a (finite) float in
`[-90, 90]`, a longitude that parses as a float in `[-180, 180]`, and
non-empty name, type and contact values. -/
theorem C1_output_rows_valid (t : Raw) (c : CRow) (h : c ∈ standardise_columns t) :
    (∃ s n d, c.latitude = some s ∧ pyFloat? s = some (PFloat.fin n d) ∧
       -(90 : ℚ) ≤ ratVal n d ∧ ratVal n d ≤ 90) ∧
    (∃ s n d, c.longitude = some s ∧ pyFloat? s = some (PFloat.fin n d) ∧
       -(180 : ℚ) ≤ ratVal n d ∧ ratVal n d ≤ 180) ∧
    (∃ s, c.name = some s ∧ s ≠ "") ∧
    (∃ s, c.type = some s ∧ s ≠ "") ∧
    (∃ s, c.contact = some s ∧ s ≠ "") := by
  obtain ⟨hgl, hgo, he, hq, _, _, _⟩ := mem_standardise h
  unfold essentialsPresent at he
  unfold queryKeep at hq
  rw [Bool.and_eq_true, Bool.and_eq_true, Bool.and_eq_true, Bool.and_eq_true] at he
  rw [Bool.and_eq_true, Bool.and_eq_true] at hq
  obtain ⟨⟨⟨⟨hn, ht⟩, _⟩, _⟩, hc⟩ := he
  obtain ⟨⟨hqn, hqt⟩, hqc⟩ := hq
  have hqn' : c.name ≠ some "" := by simpa using hqn
  have hqt' : c.type ≠ some "" := by simpa using hqt
  have hqc' : c.contact ≠ some "" := by simpa using hqc
  refine ⟨good_lat_spec hgl, good_lon_spec hgo, ?_, ?_, ?_⟩
  · rcases Option.isSome_iff_exists.mp hn with ⟨s, hs⟩
    exact ⟨s, hs, fun h0 => hqn' (by rw [hs, h0])⟩
  · rcases Option.isSome_iff_exists.mp ht with ⟨s, hs⟩
    exact ⟨s, hs, fun h0 => hqt' (by rw [hs, h0])⟩
  · rcases Option.isSome_iff_exists.mp hc with ⟨s, hs⟩
    exact ⟨s, hs, fun h0 => hqc' (by rw [hs, h0])⟩

/-- Witness for C1 at a concrete upload. -/
theorem C1_witness :
    (∃ s n d, (some "12.9" : Cell) = some s ∧ pyFloat? s = some (PFloat.fin n d) ∧
       -(90 : ℚ) ≤ ratVal n d ∧ ratVal n d ≤ 90) ∧
    (∃ s n d, (some "77.6" : Cell) = some s ∧ pyFloat? s = some (PFloat.fin n d) ∧
       -(180 : ℚ) ≤ ratVal n d ∧ ratVal n d ≤ 180) ∧
    (∃ s, (some "Alpha" : Cell) = some s ∧ s ≠ "") ∧
    (∃ s, (some "Camp" : Cell) = some s ∧ s ≠ "") ∧
    (∃ s, (some "123" : Cell) = some s ∧ s ≠ "") :=
  C1_output_rows_valid
    { header := ["Name", "Type", "Lat", "Long", "Phone"],
      rows := [[some "Alpha", some "Camp", some "12.9", some "77.6", some "123"]] }
    { name := some "Alpha", type := some "Camp", latitude := some "12.9",
      longitude := some "77.6", inventory := some "", last_updated := some "",
      contact := some "123", supported_disasters := none }
    (by decide)

/-- C2: the normalization pipeline is a total function on row tables: it
always returns a (possibly empty) canonical table, never more rows than it
was given — rows that cannot be made canonical are dropped, and a header
matching nothing yields the empty table rather than an error. -/
theorem C2_total_and_dropping :
    (∀ t : Raw, (standardise_columns t).length ≤ t.rows.length) ∧
    standardise_columns { header := ["junk"], rows := [[some "x"]] } = [] := by
  constructor
  · intro t
    unfold standardise_columns
    have hfix : (contactFix (normHeader t.header) t.rows
        (t.rows.map (mkRow (normHeader t.header)))).length = t.rows.length := by
      unfold contactFix
      split
      · rw [List.length_map, List.length_zip, List.length_map, Nat.min_self]
      · rw [List.length_map]
    rw [List.length_map]
    exact le_trans (List.length_filter_le _ _)
      (le_trans (List.length_filter_le _ _)
        (le_trans (List.length_filter_le _ _) (le_of_eq hfix)))
  · decide

/-! ## Idempotence of `standardise_columns` -/

/-- The canonical output row as a raw row, positioned like `REQUIRED_COLS`
(the output DataFrame fed back into the normalizer). -/
def toCells (c : CRow) : List Cell :=
  [c.name, c.type, c.latitude, c.longitude, c.inventory, c.last_updated,
   c.contact, c.supported_disasters]

/-- The output DataFrame of `standardise_columns` viewed as an input table:
its header is exactly `REQUIRED_COLS`. -/
def toRaw (rows : List CRow) : Raw :=
  { header := REQUIRED_COLS, rows := rows.map toCells }

/-- Reset the three alias-less columns to NaN (what re-running steps ❶-❸
does to a canonical row). -/
def eraseOpt (c : CRow) : CRow :=
  { c with inventory := none, last_updated := none, supported_disasters := none }

/-- The canonical header is already trimmed and lowercase. -/
theorem normHeader_required : normHeader REQUIRED_COLS = REQUIRED_COLS := by decide

/-- Re-running alias resolution on a canonical row recovers the five
aliasable fields and resets the other three to NaN. -/
theorem mkRow_toCells (c : CRow) : mkRow REQUIRED_COLS (toCells c) = eraseOpt c := by
  rw [mkRow_eq]; rfl

/-- Without a `mobile_number` column the contact-fallback step is the
identity. -/
theorem contactFix_noMobile {nh : List String} (h : nh.contains "mobile_number" = false)
    (raws : List (List Cell)) (rows : List CRow) : contactFix nh raws rows = rows := by
  unfold contactFix
  rw [h, Bool.false_and]
  rfl

/-- Applying the defaults step to an erased row recovers the row, provided
the row already carries the default values. -/
theorem applyDefaults_eraseOpt (c : CRow) (h5 : c.inventory = some "")
    (h6 : c.last_updated = some "") (h7 : c.supported_disasters = none) :
    applyDefaults (eraseOpt c) = c := by
  cases c
  simp only [applyDefaults, eraseOpt] at *
  simp_all

/-- Feeding a list of rows that already satisfy the pipeline's filters and
defaults through the tail of the pipeline reproduces the list. -/
theorem pipeline_restore (l : List CRow)
    (h : ∀ c ∈ l, good_lat c.latitude = true ∧ good_lon c.longitude = true ∧
      essentialsPresent c = true ∧ queryKeep c = true ∧
      c.inventory = some "" ∧ c.last_updated = some "" ∧ c.supported_disasters = none) :
    ((((l.map eraseOpt).filter
        (fun c => good_lat c.latitude && good_lon c.longitude)).filter
      essentialsPresent).filter queryKeep).map applyDefaults = l := by
  induction l with
  | nil => rfl
  | cons a l ih =>
    obtain ⟨h1, h2, h3, h4, h5, h6, h7⟩ := h a (List.mem_cons_self a l)
    have hrest := fun c hc => h c (List.mem_cons_of_mem a hc)
    have e1 : (good_lat (eraseOpt a).latitude && good_lon (eraseOpt a).longitude) = true := by
      show (good_lat a.latitude && good_lon a.longitude) = true
      rw [h1, h2]
      rfl
    have e3 : essentialsPresent (eraseOpt a) = true := h3
    have e4 : queryKeep (eraseOpt a) = true := h4
    simp only [List.map_cons, List.filter_cons, e1, e3, e4, if_true]
    rw [applyDefaults_eraseOpt a h5 h6 h7, ih hrest]

/-- C3: `standardise_columns` is idempotent — normalizing its own output
(viewed as an uploaded table with the canonical header) returns that output
unchanged. -/
theorem C3_idempotent (t : Raw) :
    standardise_columns (toRaw (standardise_columns t)) = standardise_columns t := by
  have key : ∀ l : List CRow,
      (∀ c ∈ l, good_lat c.latitude = true ∧ good_lon c.longitude = true ∧
        essentialsPresent c = true ∧ queryKeep c = true ∧
        c.inventory = some "" ∧ c.last_updated = some "" ∧ c.supported_disasters = none) →
      standardise_columns (toRaw l) = l := by
    intro l hl
    unfold standardise_columns
    rw [show normHeader (toRaw l).header = REQUIRED_COLS from normHeader_required]
    rw [contactFix_noMobile (by decide)]
    rw [show (toRaw l).rows = l.map toCells from rfl, List.map_map,
      show (mkRow REQUIRED_COLS ∘ toCells) = eraseOpt from funext mkRow_toCells]
    exact pipeline_restore l hl
  exact key _ (fun c hc => mem_standardise hc)

/-- C4: the combined-coordinate branch is dead code — all 8 canonical
columns exist in `out` from its construction, so its guard is false for
every header, and a table whose only coordinates sit in a
`location_coordinates` column loses the row (latitude stays NaN and fails
`good_lat`) instead of getting latitude "12.9" / longitude "77.6". -/
theorem C4_coord_split_never_fires :
    (∀ nh : List String, coordSplitCond nh = false) ∧
    standardise_columns
        { header := ["name", "type", "contact", "location_coordinates"],
          rows := [[some "A", some "Shelter", some "123", some "12.9,77.6"]] } = [] :=
  ⟨coordSplitCond_false, by decide⟩

/-- C5: `supported_disasters` never becomes "General": no alias copies the
column, step ❸ never fills the blank (every required column already exists
in `out`), so the column stays NaN and `replace("", "General")` does not
touch it — the surviving row below keeps a missing `supported_disasters`
even though its input cell was the empty string, while `inventory` and
`last_updated` do get the empty-string default. -/
theorem C5_supported_default_missing :
    standardise_columns
        { header := ["name", "type", "lat", "lon", "contact", "supported_disasters"],
          rows := [[some "A", some "Shelter", some "12.9", some "77.6", some "123", some ""]] } =
      [{ name := some "A", type := some "Shelter", latitude := some "12.9",
         longitude := some "77.6", inventory := some "", last_updated := some "",
         contact := some "123", supported_disasters := none }] := by decide

/-- C6 counterexample: a row whose name is the single space " " is KEPT by
`standardise_columns` (the essential-field filter compares against the
empty string without trimming), contradicting the claim that such a row is
dropped. -/
theorem C6_counterexample :
    standardise_columns
        { header := ["name", "type", "lat", "lon", "contact"],
          rows := [[some " ", some "Shelter", some "12.9", some "77.6", some "123"]] } =
      [{ name := some " ", type := some "Shelter", latitude := some "12.9",
         longitude := some "77.6", inventory := some "", last_updated := some "",
         contact := some "123", supported_disasters := none }] := by decide

/-- C6 (amended): a row is kept only if name, type, latitude, longitude and
contact are all non-missing and name, type and contact are non-empty
strings compared literally, WITHOUT trimming — whitespace-only values count
as non-empty and survive. -/
theorem C6_amended (t : Raw) (c : CRow) (h : c ∈ standardise_columns t) :
    c.name.isSome = true ∧ c.name ≠ some "" ∧
    c.type.isSome = true ∧ c.type ≠ some "" ∧
    c.latitude.isSome = true ∧ c.longitude.isSome = true ∧
    c.contact.isSome = true ∧ c.contact ≠ some "" := by
  obtain ⟨_, _, he, hq, _, _, _⟩ := mem_standardise h
  unfold essentialsPresent at he
  unfold queryKeep at hq
  rw [Bool.and_eq_true, Bool.and_eq_true, Bool.and_eq_true, Bool.and_eq_true] at he
  rw [Bool.and_eq_true, Bool.and_eq_true] at hq
  obtain ⟨⟨⟨⟨hn, ht⟩, hla⟩, hlo⟩, hc⟩ := he
  obtain ⟨⟨hqn, hqt⟩, hqc⟩ := hq
  exact ⟨hn, by simpa using hqn, ht, by simpa using hqt, hla, hlo, hc, by simpa using hqc⟩

/-- Witness for the amended C6 at a concrete upload whose name is
whitespace-only. -/
theorem C6_amended_witness :
    (some " " : Cell).isSome = true ∧ (some " " : Cell) ≠ some "" ∧
    (some "Shelter" : Cell).isSome = true ∧ (some "Shelter" : Cell) ≠ some "" ∧
    (some "12.9" : Cell).isSome = true ∧ (some "77.6" : Cell).isSome = true ∧
    (some "123" : Cell).isSome = true ∧ (some "123" : Cell) ≠ some "" :=
  C6_amended
    { header := ["name", "type", "lat", "lon", "contact"],
      rows := [[some " ", some "Shelter", some "12.9", some "77.6", some "123"]] }
    { name := some " ", type := some "Shelter", latitude := some "12.9",
      longitude := some "77.6", inventory := some "", last_updated := some "",
      contact := some "123", supported_disasters := none }
    (by decide)

/-- C7: `load_relief_centers` splits a disasters cell on "," or "|" after
discarding whitespace, and `filter_by_disaster` keeps exactly the rows
whose tag list contains the selected disaster, case-insensitively; in
particular "Flood|Cyclone" matches the selections "flood" and "cyclone". -/
theorem C7_disaster_matching :
    (∀ (rows : List (List String)) (d : String) (l : List String),
        l ∈ filter_by_disaster rows d ↔
          l ∈ rows ∧ ∃ tg, tg ∈ l ∧ tg ≠ "" ∧ lowerStr tg = lowerStr d) ∧
    splitTags "Flood|Cyclone" = ["Flood", "Cyclone"] ∧
    splitTags " Flood , Cyclone " = ["Flood", "Cyclone"] ∧
    loadTags none = [""] ∧
    matchesDisaster (splitTags "Flood|Cyclone") "flood" = true ∧
    matchesDisaster (splitTags "Flood|Cyclone") "cyclone" = true ∧
    matchesDisaster (splitTags "Flood|Cyclone") "fire" = false := by
  refine ⟨?_, by decide, by decide, by decide, by decide, by decide, by decide⟩
  intro rows d l
  unfold filter_by_disaster
  rw [List.mem_filter]
  simp only [matchesDisaster, List.any_eq_true, Bool.and_eq_true, Bool.not_eq_true',
    beq_eq_false_iff_ne, beq_iff_eq]

/-- Witness for C7: the "Flood|Cyclone" row survives the "flood" filter. -/
theorem C7_witness :
    ["Flood", "Cyclone"] ∈ filter_by_disaster [["Flood", "Cyclone"], ["Fire"]] "flood" :=
  (C7_disaster_matching.1 [["Flood", "Cyclone"], ["Fire"]] "flood" ["Flood", "Cyclone"]).mpr
    ⟨by decide, "Flood", by decide, by decide, by decide⟩

/-- C8 counterexample: a header containing "Lat" and "Long" does NOT always
map the "Long" column to longitude — with a "lon" column also present,
alias resolution picks "lon" (the first longitude alias), and the built
row's longitude is the `lon` cell "30", not the `Long` cell "20". -/
theorem C8_counterexample :
    aliasSource (normHeader ["Lat", "Long", "lon"]) longitudeAliases = some "lon" ∧
    (mkRow (normHeader ["Lat", "Long", "lon"]) [some "10", some "20", some "30"]).longitude =
      some "30" ∧
    (mkRow (normHeader ["Lat", "Long", "lon"]) [some "10", some "20", some "30"]).longitude ≠
      some "20" := by decide

/-- C8 (amended): for a header containing "Lat" and "Long" (any case, any
surrounding whitespace — the hypotheses are on the normalized header),
alias resolution takes latitude from the "lat" column and longitude from
the "lon" column when one is also present, otherwise from the "long"
column; the combined-coordinate-split path is not used. -/
theorem C8_lat_long_alias (h : List String)
    (hlat : (normHeader h).contains "lat" = true)
    (hlong : (normHeader h).contains "long" = true) :
    aliasSource (normHeader h) latitudeAliases = some "lat" ∧
    aliasSource (normHeader h) longitudeAliases =
      some (if (normHeader h).contains "lon" then "lon" else "long") ∧
    (∀ r : List Cell, (mkRow (normHeader h) r).latitude = colCell (normHeader h) r "lat") ∧
    (∀ r : List Cell, (mkRow (normHeader h) r).longitude =
      colCell (normHeader h) r (if (normHeader h).contains "lon" then "lon" else "long")) ∧
    coordSplitCond (normHeader h) = false := by
  have h1 : aliasSource (normHeader h) latitudeAliases = some "lat" := by
    unfold aliasSource latitudeAliases
    rw [List.find?_cons_of_pos _ hlat]
  have h2 : aliasSource (normHeader h) longitudeAliases =
      some (if (normHeader h).contains "lon" then "lon" else "long") := by
    by_cases hlon : (normHeader h).contains "lon" = true
    · rw [if_pos hlon]
      unfold aliasSource longitudeAliases
      rw [List.find?_cons_of_pos _ hlon]
    · rw [if_neg hlon]
      unfold aliasSource longitudeAliases
      rw [List.find?_cons_of_neg _ hlon, List.find?_cons_of_pos _ hlong]
  refine ⟨h1, h2, ?_, ?_, coordSplitCond_false _⟩
  · intro r
    rw [mkRow_eq]
    show pick (normHeader h) r latitudeAliases = colCell (normHeader h) r "lat"
    unfold pick
    rw [h1]
  · intro r
    rw [mkRow_eq]
    show pick (normHeader h) r longitudeAliases =
      colCell (normHeader h) r (if (normHeader h).contains "lon" then "lon" else "long")
    unfold pick
    rw [h2]

/-- Witness for the amended C8: a header without a "lon" column resolves
longitude from "long", one with a "lon" column resolves it from "lon". -/
theorem C8_witness :
    (aliasSource (normHeader ["  LAT ", "Long", "Name"]) latitudeAliases = some "lat" ∧
     aliasSource (normHeader ["  LAT ", "Long", "Name"]) longitudeAliases = some "long" ∧
     coordSplitCond (normHeader ["  LAT ", "Long", "Name"]) = false) ∧
    aliasSource (normHeader ["Lat", "Long", "lon"]) longitudeAliases = some "lon" :=
  ⟨⟨(C8_lat_long_alias ["  LAT ", "Long", "Name"] (by decide) (by decide)).1,
    ((C8_lat_long_alias ["  LAT ", "Long", "Name"] (by decide) (by decide)).2.1).trans (by decide),
    (C8_lat_long_alias ["  LAT ", "Long", "Name"] (by decide) (by decide)).2.2.2.2⟩,
   ((C8_lat_long_alias ["Lat", "Long", "lon"] (by decide) (by decide)).2.1).trans (by decide)⟩

/-- C9: `detect_encoding` depends only on the first 50,000 bytes of the
sample; it returns "latin1" when the lowercased guess is empty, "ascii" or
"unknown", and otherwise returns the lowercased guess itself. -/
theorem C9_encoding_fallback (guess : List Nat → Option String) (raw : List Nat) :
    detect_encoding guess raw = detect_encoding guess (raw.take 50000) ∧
    ((lowerStr ((guess (raw.take 50000)).getD "") = "" ∨
      lowerStr ((guess (raw.take 50000)).getD "") = "ascii" ∨
      lowerStr ((guess (raw.take 50000)).getD "") = "unknown") →
        detect_encoding guess raw = "latin1") ∧
    (¬(lowerStr ((guess (raw.take 50000)).getD "") = "" ∨
       lowerStr ((guess (raw.take 50000)).getD "") = "ascii" ∨
       lowerStr ((guess (raw.take 50000)).getD "") = "unknown") →
        detect_encoding guess raw = lowerStr ((guess (raw.take 50000)).getD "")) := by
  refine ⟨?_, ?_, ?_⟩
  · unfold detect_encoding
    rw [List.take_take, Nat.min_self]
  · intro hcase
    unfold detect_encoding
    rw [if_pos hcase]
  · intro hcase
    unfold detect_encoding
    rw [if_neg hcase]

/-- Witness for C9: a guessed "UTF-8" is returned lowercased. -/
theorem C9_witness : detect_encoding (fun _ => some "UTF-8") [] = "utf-8" :=
  ((C9_encoding_fallback (fun _ => some "UTF-8") []).2.2 (by decide)).trans (by decide)

/-! ## The three alias-less columns do not influence the output -/

/-- The three canonical columns no alias ever copies from the input. -/
def tripleCols : List String := ["inventory", "last_updated", "supported_disasters"]

/-- Two raw rows agree on every cell that sits under a column name other
than the three alias-less ones. -/
def agreeRow (nh : List String) (r₁ r₂ : List Cell) : Bool :=
  (List.range nh.length).all fun i =>
    match nh.get? i with
    | some c => tripleCols.contains c || (r₁.get? i == r₂.get? i)
    | none => true

/-- Two tables with the same header whose rows agree outside the
`inventory`/`last_updated`/`supported_disasters` columns. -/
def tablesAgree (t₁ t₂ : Raw) : Bool :=
  (t₁.header == t₂.header) && (t₁.rows.length == t₂.rows.length) &&
    ((t₁.rows.zip t₂.rows).all fun p => agreeRow (normHeader t₁.header) p.1 p.2)

/-- A successful positional lookup is within bounds. -/
theorem get?_lt {α : Type} : ∀ {l : List α} {i : Nat} {x : α}, l.get? i = some x → i < l.length
  | _ :: _, 0, _, _ => Nat.succ_pos _
  | _ :: _, i + 1, _, h => Nat.succ_lt_succ (get?_lt h)

/-- `idxOf1` finds the name it was asked for. -/
theorem idxOf1_spec {c : String} : ∀ {l : List String} {i : Nat},
    idxOf1 c l = some i → l.get? i = some c
  | x :: xs, i, h => by
    unfold idxOf1 at h
    by_cases hx : (x == c) = true
    · rw [if_pos hx] at h
      injection h with h'
      subst h'
      show some x = some c
      rw [eq_of_beq hx]
    · rw [if_neg hx] at h
      rcases hmap : idxOf1 c xs with _ | j
      · rw [hmap] at h; cases h
      · rw [hmap] at h
        injection h with h'
        subst h'
        show xs.get? j = some c
        exact idxOf1_spec hmap

/-- Row agreement gives cell agreement at any column outside the triple. -/
theorem agreeRow_cell {nh : List String} {r₁ r₂ : List Cell} (h : agreeRow nh r₁ r₂ = true)
    {i : Nat} {c : String} (hc : nh.get? i = some c)
    (hnc : tripleCols.contains c = false) : r₁.get? i = r₂.get? i := by
  have hi : i < nh.length := get?_lt hc
  have hall := List.all_eq_true.mp h i (List.mem_range.mpr hi)
  simp only [hc] at hall
  rw [hnc, Bool.false_or] at hall
  exact eq_of_beq hall

/-- Column extraction only looks at cells outside the triple columns. -/
theorem colCell_congr {nh : List String} {r₁ r₂ : List Cell}
    (h : agreeRow nh r₁ r₂ = true) {c : String} (hnc : tripleCols.contains c = false) :
    colCell nh r₁ c = colCell nh r₂ c := by
  unfold colCell
  rcases hidx : idxOf1 c nh with _ | i
  · rfl
  · show (r₁.get? i).join = (r₂.get? i).join
    rw [agreeRow_cell h (idxOf1_spec hidx) hnc]

/-- Alias resolution only reads columns outside the triple. -/
theorem pick_congr {nh : List String} {r₁ r₂ : List Cell} (h : agreeRow nh r₁ r₂ = true)
    {cands : List String} (hc : ∀ c ∈ cands, tripleCols.contains c = false) :
    pick nh r₁ cands = pick nh r₂ cands := by
  unfold pick
  rcases hfind : aliasSource nh cands with _ | c
  · rfl
  · exact colCell_congr h (hc c (List.mem_of_find?_eq_some hfind))

/-- Row construction is blind to the triple columns. -/
theorem mkRow_congr {nh : List String} {r₁ r₂ : List Cell} (h : agreeRow nh r₁ r₂ = true) :
    mkRow nh r₁ = mkRow nh r₂ := by
  rw [mkRow_eq, mkRow_eq]
  unfold mkRowBase
  rw [pick_congr h (by decide : ∀ c ∈ nameAliases, tripleCols.contains c = false),
    pick_congr h (by decide : ∀ c ∈ typeAliases, tripleCols.contains c = false),
    pick_congr h (by decide : ∀ c ∈ latitudeAliases, tripleCols.contains c = false),
    pick_congr h (by decide : ∀ c ∈ longitudeAliases, tripleCols.contains c = false),
    pick_congr h (by decide : ∀ c ∈ contactAliases, tripleCols.contains c = false)]

/-- Mapping row construction over agreeing row lists gives equal results. -/
theorem mapRows_congr {nh : List String} : ∀ {raws₁ raws₂ : List (List Cell)},
    raws₁.length = raws₂.length →
    ((raws₁.zip raws₂).all fun p => agreeRow nh p.1 p.2) = true →
    raws₁.map (mkRow nh) = raws₂.map (mkRow nh)
  | [], [], _, _ => rfl
  | a :: raws₁, b :: raws₂, hlen, hall => by
    simp only [List.zip_cons_cons, List.all_cons, Bool.and_eq_true] at hall
    simp only [List.map_cons]
    rw [mkRow_congr hall.1, mapRows_congr (Nat.succ.inj hlen) hall.2]

/-- The zipped contact rewrite of step ❹ reads only the `mobile_number`
column, which is outside the triple. -/
theorem zipContact_congr {nh : List String} : ∀ (rows : List CRow)
    {raws₁ raws₂ : List (List Cell)},
    ((raws₁.zip raws₂).all fun p => agreeRow nh p.1 p.2) = true →
    raws₁.length = raws₂.length →
    (rows.zip raws₁).map (fun p => { p.1 with contact := colCell nh p.2 "mobile_number" }) =
      (rows.zip raws₂).map (fun p => { p.1 with contact := colCell nh p.2 "mobile_number" })
  | [], _, _, _, _ => by rw [List.zip_nil_left, List.zip_nil_left]
  | r :: rows, [], [], _, _ => rfl
  | r :: rows, a :: raws₁, b :: raws₂, hall, hlen => by
    simp only [List.zip_cons_cons, List.all_cons, Bool.and_eq_true] at hall
    simp only [List.zip_cons_cons, List.map_cons]
    rw [colCell_congr hall.1 (by decide), zipContact_congr rows hall.2 (Nat.succ.inj hlen)]

/-- The contact-fallback step gives equal results on agreeing raw tables. -/
theorem contactFix_congr {nh : List String} {raws₁ raws₂ : List (List Cell)}
    (rows : List CRow) (hlen : raws₁.length = raws₂.length)
    (hall : ((raws₁.zip raws₂).all fun p => agreeRow nh p.1 p.2) = true) :
    contactFix nh raws₁ rows = contactFix nh raws₂ rows := by
  unfold contactFix
  by_cases hcond : (nh.contains "mobile_number" && contactAllBlank rows) = true
  · rw [if_pos hcond, if_pos hcond]
    exact zipContact_congr rows hall hlen
  · rw [if_neg hcond, if_neg hcond]

/-- `standardise_columns` gives identical outputs on two tables that agree
outside the triple columns. -/
theorem standardise_congr {t₁ t₂ : Raw} (h : tablesAgree t₁ t₂ = true) :
    standardise_columns t₁ = standardise_columns t₂ := by
  unfold tablesAgree at h
  rw [Bool.and_eq_true, Bool.and_eq_true] at h
  obtain ⟨⟨hh, hlen⟩, hall⟩ := h
  have hh' : t₁.header = t₂.header := eq_of_beq hh
  have hlen' : t₁.rows.length = t₂.rows.length := eq_of_beq hlen
  unfold standardise_columns
  rw [← hh']
  rw [mapRows_congr hlen' hall, contactFix_congr (t₂.rows.map (mkRow (normHeader t₁.header))) hlen' hall]

/-- C10: the input's `inventory`, `last_updated` and `supported_disasters`
columns are never copied (no alias maps to them): every output row carries
`inventory = ""`, `last_updated = ""` and a missing `supported_disasters`,
and two inputs that differ only in those three columns produce identical
outputs. -/
theorem C10_optional_columns :
    (∀ (t : Raw) (c : CRow), c ∈ standardise_columns t →
        c.inventory = some "" ∧ c.last_updated = some "" ∧ c.supported_disasters = none) ∧
    (∀ t₁ t₂ : Raw, tablesAgree t₁ t₂ = true →
        standardise_columns t₁ = standardise_columns t₂) := by
  constructor
  · intro t c h
    obtain ⟨_, _, _, _, h5, h6, h7⟩ := mem_standardise h
    exact ⟨h5, h6, h7⟩
  · intro t₁ t₂ h
    exact standardise_congr h

/-- Witness for C10: two uploads that differ only in the three alias-less
columns normalize identically. -/
theorem C10_witness :
    standardise_columns
        { header := ["name", "type", "lat", "lon", "contact",
                     "inventory", "last_updated", "supported_disasters"],
          rows := [[some "A", some "B", some "1", some "2", some "C",
                    some "food", some "2024", some "Flood"]] } =
      standardise_columns
        { header := ["name", "type", "lat", "lon", "contact",
                     "inventory", "last_updated", "supported_disasters"],
          rows := [[some "A", some "B", some "1", some "2", some "C",
                    some "water", none, some "Fire"]] } :=
  C10_optional_columns.2 _ _ (by decide)
